import Mathlib

/-!
Verification of the unsubscribe agent and ingestion/classification pipeline
of the email-sorter repository, as a shallow embedding in Lean 4.

The definitions below are translated from the TypeScript sources:
* `src/lib/agent/unsubscribe-agent.ts` (result verifier heuristics, page
  analysis fallback, per-URL unsubscribe unit of work, bulk loop),
* `src/lib/gmail.ts` (`extractHeaders`, `extractUnsubscribeLink`),
* `src/lib/email-sync.ts` (`processMessage`, unsubscribe-link field),
* `src/lib/ai/prompts.ts` (confidence gate of `processEmailsForUser`,
  persistence decision of `recategorizeEmails`).

External effects (browser operations, the Gemini LLM call, `JSON.parse`)
are modelled as explicit inputs: an `Except String` value stands for a
call that either returns text or throws, and a `String → Option α`
function stands for `JSON.parse` into the expected shape.  JavaScript
number confidences are modelled as rationals.
-/

/-! ## String helpers modelling the JavaScript primitives used -/

/-- JavaScript `String.prototype.toLowerCase` restricted to the character
ranges that actually occur in the program's inputs and patterns:
ASCII `A`–`Z` and the Latin-1 uppercase block `À`–`Þ` (excluding `×`)
map to their lowercase forms 32 code points higher; every other
character is unchanged. -/
def jsLowerChar (c : Char) : Char :=
  let n := c.toNat
  if 65 ≤ n ∧ n ≤ 90 then Char.ofNat (n + 32)
  else if 192 ≤ n ∧ n ≤ 222 ∧ n ≠ 215 then Char.ofNat (n + 32)
  else c

/-- Lowercase an entire string, as `s.toLowerCase()` does. -/
def jsToLower (s : String) : String :=
  String.mk (s.data.map jsLowerChar)

/-- Does the character list begin with the given pattern (exact match)? -/
def listStartsWith : List Char → List Char → Bool
  | [], _ => true
  | _ :: _, [] => false
  | p :: ps, c :: cs => p == c && listStartsWith ps cs

/-- Does the character list contain the pattern as a contiguous run?
This is JavaScript `String.prototype.includes` on the underlying
character sequences. -/
def listContains (pat : List Char) : List Char → Bool
  | [] => listStartsWith pat []
  | c :: cs => listStartsWith pat (c :: cs) || listContains pat cs

/-- JavaScript `s.includes(pat)`. -/
def strIncludes (s pat : String) : Bool :=
  listContains pat.data s.data

/-- Case-insensitive prefix test (used for the `/i`-flagged regexes). -/
def ciStartsWith : List Char → List Char → Bool
  | [], _ => true
  | _ :: _, [] => false
  | p :: ps, c :: cs => (jsLowerChar p == jsLowerChar c) && ciStartsWith ps cs

/-! ## Result Verifier: heuristic tier
(`analyzeUnsubscribeResultWithHeuristics`, unsubscribe-agent.ts:616) -/

/-- The `status` vocabulary of `UnsubscribeResultAnalysis`. -/
inductive UnsubStatus
  | unsubscribed
  | already_unsubscribed
  | error
  | unknown
  | requires_action
deriving DecidableEq, Repr

/-- The verifier's verdict record (`UnsubscribeResultAnalysis` in
unsubscribe-agent.ts:39). -/
structure UnsubscribeResultAnalysis where
  success : Bool
  reason : String
  status : UnsubStatus
deriving DecidableEq, Repr

/-- Success patterns (unsubscribe-agent.ts:621). -/
def successPatterns : List String :=
  [ "successfully unsubscribed"
  , "you have been unsubscribed"
  , "unsubscribe confirmed"
  , "removed from"
  , "you have been removed"
  , "preferences updated"
  , "subscription cancelled"
  , "opt-out successful"
  , "you will no longer receive" ]

/-- Already-unsubscribed patterns (unsubscribe-agent.ts:634). -/
def alreadyDonePatterns : List String :=
  [ "already unsubscribed"
  , "not subscribed"
  , "email not found"
  , "not on our list"
  , "no subscription found" ]

/-- Error patterns (unsubscribe-agent.ts:643). -/
def errorPatterns : List String :=
  [ "link expired"
  , "link has expired"
  , "invalid token"
  , "token expired"
  , "error occurred"
  , "something went wrong"
  , "unable to process"
  , "request failed" ]

/-- The heuristic tier of the Result Verifier
(`analyzeUnsubscribeResultWithHeuristics`): lower-case the page text,
then scan the success, already-done and error pattern buckets in that
order, returning at the first pattern contained in the text.  The
source computes `lowerContent` once; here the pure expression
`jsToLower pageContent` is written at each use. -/
def analyzeUnsubscribeResultWithHeuristics
    (pageContent : String) : UnsubscribeResultAnalysis :=
  match successPatterns.find? (fun p => strIncludes (jsToLower pageContent) p) with
  | some _ =>
      { success := true
        reason := "Successfully unsubscribed"
        status := UnsubStatus.unsubscribed }
  | none =>
    match alreadyDonePatterns.find? (fun p => strIncludes (jsToLower pageContent) p) with
    | some _ =>
        { success := true
          reason := "Already unsubscribed or not subscribed"
          status := UnsubStatus.already_unsubscribed }
    | none =>
      match errorPatterns.find? (fun p => strIncludes (jsToLower pageContent) p) with
      | some pat =>
          { success := false
            reason := "Unsubscribe failed - " ++ pat
            status := UnsubStatus.error }
      | none =>
          { success := false
            reason := "Could not verify unsubscribe result"
            status := UnsubStatus.unknown }

/-- Does one of the bucket's patterns occur (case-insensitively) in the
text?  Used to state the priority-ordering claims. -/
def matchesAnyPattern (pats : List String) (s : String) : Bool :=
  pats.any (fun p => strIncludes (jsToLower s) p)

/-! ## LLM response cleanup
(`text.replace(/```json\n?/g, '').replace(/```\n?/g, '').trim()`) -/

/-- One global-replace pass deleting every occurrence of `pat`
optionally followed by a newline, scanning left to right exactly as the
JavaScript regex replace does (leftmost match, greedy optional `\n`,
continue after the deleted span). -/
def stripFencesGo (pat : List Char) : Nat → List Char → List Char
  | _, [] => []
  | Nat.succ n, _ :: cs => stripFencesGo pat n cs
  | 0, c :: cs =>
    if listStartsWith (pat ++ ['\n']) (c :: cs) then
      stripFencesGo pat pat.length cs
    else if listStartsWith pat (c :: cs) then
      stripFencesGo pat (pat.length - 1) cs
    else
      c :: stripFencesGo pat 0 cs

/-- Delete every occurrence of `pat` optionally followed by a newline
(see `stripFencesGo`; the counter skips the remainder of a deleted
span). -/
def stripFences (pat : List Char) (cs : List Char) : List Char :=
  stripFencesGo pat 0 cs

/-- The whitespace characters removed by JavaScript
`String.prototype.trim` that can occur here: space, tab, newline,
carriage return, vertical tab, form feed, and no-break space. -/
def isJsWhitespace (c : Char) : Bool :=
  c = ' ' ∨ c = '\t' ∨ c = '\n' ∨ c = '\r' ∨
    c = Char.ofNat 11 ∨ c = Char.ofNat 12 ∨ c = Char.ofNat 160

/-- JavaScript `s.trim()`: drop leading and trailing whitespace. -/
def jsTrim (s : String) : String :=
  String.mk
    (((s.data.dropWhile isJsWhitespace).reverse.dropWhile isJsWhitespace).reverse)

/-- The response cleanup applied before `JSON.parse`: strip
markdown code fences, then trim surrounding whitespace. -/
def cleanLLMText (text : String) : String :=
  jsTrim (String.mk (stripFences "```".data (stripFences "```json".data text.data)))

/-! ## Page Intent Analyzer (`analyzePageWithAI`, unsubscribe-agent.ts:155) -/

/-- `nextAction` vocabulary of the action plan. -/
inductive NextAction
  | click_button
  | fill_form
  | already_done
  | unknown
deriving DecidableEq, Repr

/-- Form-field kinds of `FormFieldToFill` (unsubscribe-agent.ts:21). -/
inductive FieldKind
  | text
  | email
  | checkbox
  | radio
  | select
  | textarea
deriving DecidableEq, Repr

/-- The literal placeholder the analyzer plans for email fields; the
source spells it `{{EMAIL}}` (braces escaped here). -/
def emailPlaceholder : String := "\x7b\x7bEMAIL\x7d\x7d"

/-- One planned form field (`FormFieldToFill`, unsubscribe-agent.ts:21). -/
structure FormFieldToFill where
  selector : String
  type : FieldKind
  value : String
  description : Option String
deriving DecidableEq, Repr

/-- The analyzer's structured output (`PageAnalysis`,
unsubscribe-agent.ts:28).  Optional fields absent in the JSON are
`none`. -/
structure PageAnalysis where
  hasUnsubscribeButton : Bool
  buttonSelector : Option String
  hasForm : Bool
  formFields : Option (List String)
  formFieldsToFill : Option (List FormFieldToFill)
  submitButtonSelector : Option String
  requiresEmail : Bool
  nextAction : NextAction
deriving DecidableEq, Repr

/-- The conservative default plan returned by the catch block of
`analyzePageWithAI` (unsubscribe-agent.ts:274). -/
def defaultPageAnalysis : PageAnalysis :=
  { hasUnsubscribeButton := true
    buttonSelector := none
    hasForm := false
    formFields := none
    formFieldsToFill := none
    submitButtonSelector := none
    requiresEmail := false
    nextAction := NextAction.click_button }

/-- `analyzePageWithAI`: the streamed LLM call is modelled by `llm`
(`Except.error` = the call threw; `Except.ok text` = the joined chunk
text, possibly empty) and `JSON.parse` into a `PageAnalysis` by
`parse` (`none` = the parse threw).  The try/catch of the source maps
every thrown step to the conservative default plan. -/
def analyzePageWithAI (parse : String → Option PageAnalysis)
    (llm : Except String String) : PageAnalysis :=
  match llm with
  | Except.error _ => defaultPageAnalysis
  | Except.ok text =>
    match parse (cleanLLMText text) with
    | some plan => plan
    | none => defaultPageAnalysis

/-! ## Result Verifier orchestration
(`analyzeUnsubscribeResult`, unsubscribe-agent.ts:538) -/

/-- `analyzeUnsubscribeResult`: run the heuristic tier; if it is
definitive (status ≠ unknown) return it without touching the LLM,
otherwise escalate to the LLM tier, whose thrown call or unparsable
response falls back to the heuristic verdict.  The second component
records whether the LLM tier was invoked. -/
def analyzeUnsubscribeResult (parse : String → Option UnsubscribeResultAnalysis)
    (llm : Except String String) (bodyText : String) :
    UnsubscribeResultAnalysis × Bool :=
  let heuristicResult := analyzeUnsubscribeResultWithHeuristics bodyText
  if heuristicResult.status ≠ UnsubStatus.unknown then
    (heuristicResult, false)
  else
    match llm with
    | Except.error _ => (heuristicResult, true)
    | Except.ok text =>
      match parse (cleanLLMText text) with
      | some verdict => (verdict, true)
      | none => (heuristicResult, true)

/-! ## Unsubscribe-link extraction (gmail.ts:279, email-sync.ts:212) -/

/-- Lookup in a JavaScript record built by repeated assignment: the
last binding for the key wins; absent key gives `undefined`. -/
def recordGet (headers : List (String × String)) (key : String) : Option String :=
  (headers.reverse.find? (fun p => p.1 == key)).map (fun p => p.2)

/-- `extractHeaders` (gmail.ts:218): keep the headers whose name and
value are both present and truthy, lower-casing the names. -/
def extractHeaders (payloadHeaders : List (String × String)) : List (String × String) :=
  (payloadHeaders.filter (fun p => p.1 ≠ "" ∧ p.2 ≠ "")).map
    (fun p => (jsToLower p.1, p.2))

/-- The regex `<(https?:\/\/[^>]+)>` attempted at a position just past
a `<`: an `http://` or `https://` scheme, then one or more characters
other than `>`, then `>`; the capture is the URL between the angle
brackets. -/
def tryAngleHttpUrl (cs : List Char) : Option String :=
  let parse : Nat → Option String := fun schemeLen =>
    let rest := cs.drop schemeLen
    let body := rest.takeWhile (fun c => c ≠ '>')
    if 1 ≤ body.length ∧ (rest.drop body.length).head? = some '>' then
      some (String.mk (cs.take schemeLen ++ body))
    else none
  if listStartsWith "https://".data cs then parse 8
  else if listStartsWith "http://".data cs then parse 7
  else none

/-- Leftmost match of `<(https?:\/\/[^>]+)>` over the header value
(case-sensitive, as the source regex has no `i` flag). -/
def findHeaderHttpUrl : List Char → Option String
  | [] => none
  | '<' :: rest =>
    (match tryAngleHttpUrl rest with
     | some u => some u
     | none => findHeaderHttpUrl rest)
  | _ :: rest => findHeaderHttpUrl rest

/-- One attempt of the case-insensitive body regex
`href=["'](https?:\/\/[^"']*KEYWORD[^"']*)["']` at the current
position: `href=`, an opening quote, a scheme, then the maximal run of
non-quote characters, which must contain the keyword after the scheme
and be terminated by a quote; the capture is the run starting at the
scheme. -/
def tryHrefAt (kw : List Char) (cs : List Char) : Option String :=
  if ciStartsWith "href=".data cs then
    match cs.drop 5 with
    | q :: rest =>
      if q = '"' ∨ q = '\'' then
        let parse : Nat → Option String := fun schemeLen =>
          let run := rest.takeWhile (fun c => c ≠ '"' ∧ c ≠ '\'')
          let afterRun := rest.drop run.length
          if listContains (kw.map jsLowerChar) ((run.drop schemeLen).map jsLowerChar) ∧
              (afterRun.head? = some '"' ∨ afterRun.head? = some '\'') then
            some (String.mk run)
          else none
        if ciStartsWith "https://".data rest then parse 8
        else if ciStartsWith "http://".data rest then parse 7
        else none
      else none
    | [] => none
  else none

/-- Leftmost match of the keyword href pattern over the HTML body. -/
def findHrefUrl (kw : List Char) : List Char → Option String
  | [] => none
  | c :: cs =>
    (match tryHrefAt kw (c :: cs) with
     | some u => some u
     | none => findHrefUrl kw cs)

/-- The keyword patterns tried over the HTML body, in source order
(gmail.ts:295). -/
def unsubscribeHrefKeywords : List String :=
  ["unsubscribe", "optout", "opt-out", "remove"]

/-- `extractUnsubscribeLink` (gmail.ts:279): the `List-Unsubscribe`
header regex first; if the header is absent, empty, or yields no HTTP
URL, fall back to the four href patterns over the HTML body in order;
otherwise `null`. -/
def extractUnsubscribeLink (headers : List (String × String))
    (htmlBody : Option String) : Option String :=
  let fromHeader : Option String :=
    match recordGet headers "list-unsubscribe" with
    | some listUnsubscribe =>
      if listUnsubscribe ≠ "" then findHeaderHttpUrl listUnsubscribe.data else none
    | none => none
  match fromHeader with
  | some u => some u
  | none =>
    match htmlBody with
    | some body =>
      if body ≠ "" then
        unsubscribeHrefKeywords.findSome? (fun kw => findHrefUrl kw.data body.data)
      else none
    | none => none

/-- The header tier of the extraction by itself. -/
def headerTierUrl (headers : List (String × String)) : Option String :=
  match recordGet headers "list-unsubscribe" with
  | some listUnsubscribe =>
    if listUnsubscribe ≠ "" then findHeaderHttpUrl listUnsubscribe.data else none
  | none => none

/-- The HTML-body tier of the extraction by itself. -/
def htmlTierUrl (htmlBody : Option String) : Option String :=
  match htmlBody with
  | some body =>
    if body ≠ "" then
      unsubscribeHrefKeywords.findSome? (fun kw => findHrefUrl kw.data body.data)
    else none
  | none => none

/-- The `unsubscribeLink` field stored on the email record by
`processMessage` (email-sync.ts:232–234): extract the headers from the
raw payload headers, then run `extractUnsubscribeLink` on them and the
HTML body.  No other computation touches the field before the bulk
insert. -/
def processMessageUnsubscribeLink (payloadHeaders : List (String × String))
    (htmlBody : Option String) : Option String :=
  extractUnsubscribeLink (extractHeaders payloadHeaders) htmlBody

/-- Modelled from the spec: the claimed three-tier determination
"unsubscribe URL via `List-Unsubscribe` header regex first, HTML
anchor-text/href heuristics second, LLM extraction as last resort when
both fail".  `llmResult` stands for the outcome of
`extractUnsubscribeLinkWithAI` (unsubscribe-extractor.ts:14), which the
ingestion path would consult after both regex tiers fail. -/
def specThreeTierUnsubscribeLink (llmResult : Option String)
    (headers : List (String × String)) (htmlBody : Option String) : Option String :=
  match extractUnsubscribeLink headers htmlBody with
  | some u => some u
  | none => llmResult

/-! ## Classification gates (prompts.ts:282 and prompts.ts:404) -/

/-- The categorizer's parsed result: a category id or `null`, plus a
confidence.  JavaScript numbers are modelled as rationals. -/
structure CategorizationResult where
  categoryId : Option String
  confidence : ℚ
deriving DecidableEq, Repr

/-- The confidence gate inside `processEmailsForUser` (prompts.ts:284):
`if (result.categoryId && result.confidence >= 0.5)` set both
`categoryId` and `aiConfidence` in the update, else leave them unset.
JavaScript truthiness makes an empty-string id falsy. -/
def confidenceGateUpdates (result : CategorizationResult) : Option (String × ℚ) :=
  match result.categoryId with
  | some cid =>
    if cid ≠ "" ∧ (1 : ℚ)/2 ≤ result.confidence then
      some (cid, result.confidence)
    else none
  | none => none

/-- The database action taken per email by `recategorizeEmails`. -/
inductive RecategorizeAction
  | setCategory (categoryId : String) (aiConfidence : ℚ)
  | clearCategory
deriving DecidableEq, Repr

/-- The persistence decision of `recategorizeEmails` (prompts.ts:407):
`if (result.categoryId)` update `categoryId` and `aiConfidence` with
the returned values — no confidence comparison anywhere — else clear
both to `null`. -/
def recategorizeAction (result : CategorizationResult) : RecategorizeAction :=
  match result.categoryId with
  | some cid =>
    if cid ≠ "" then RecategorizeAction.setCategory cid result.confidence
    else RecategorizeAction.clearCategory
  | none => RecategorizeAction.clearCategory

/-! ## Action Executor: form filling
(`performFillFormAction` field loop, unsubscribe-agent.ts:330–398) -/

/-- The value actually used for a planned field
(unsubscribe-agent.ts:338–342): the `{{EMAIL}}` placeholder is replaced
by the caller's address only when one was supplied and truthy
(non-empty); otherwise the planned value is used verbatim. -/
def substitutedValue (email : Option String) (v : String) : String :=
  match email with
  | some e => if v = emailPlaceholder ∧ e ≠ "" then e else v
  | none => v

/-- A concrete browser write issued while filling the form. -/
inductive FormWrite
  | checkBox (selector : String)
  | selectOpt (selector : String) (value : String)
  | fill (selector : String) (value : String)
deriving DecidableEq, Repr

/-- The browser writes issued for one planned field
(unsubscribe-agent.ts:344–384): checkbox/radio are checked only when
the value is `check`; select chooses the value; every other kind
(text, email, textarea, and the default case) fills the value as
text. -/
def fieldWrites (email : Option String) (field : FormFieldToFill) : List FormWrite :=
  let value := substitutedValue email field.value
  match field.type with
  | FieldKind.checkbox =>
    if value = "check" then [FormWrite.checkBox field.selector] else []
  | FieldKind.radio =>
    if value = "check" then [FormWrite.checkBox field.selector] else []
  | FieldKind.select => [FormWrite.selectOpt field.selector value]
  | _ => [FormWrite.fill field.selector value]

/-- All writes of the `formFieldsToFill` loop, in order.  A per-field
browser error is caught and skips only that field; the write sequence
planned for the remaining fields is unchanged. -/
def performFillFormWrites (email : Option String)
    (fields : List FormFieldToFill) : List FormWrite :=
  (fields.map (fieldWrites email)).flatten

/-! ## Unsubscribe Orchestrator
(`UnsubscribeAgent.unsubscribe`, unsubscribe-agent.ts:62 and
`bulkUnsubscribe`, unsubscribe-agent.ts:737) -/

/-- Observable browser/agent events of one attempt. -/
inductive AgentEv
  | launch
  | navigate (url : String)
  | screenshotTaken
  | closeBrowser
  | delay (ms : Nat)
deriving DecidableEq, Repr

/-- The per-URL outcome (`UnsubscribeResult`, unsubscribe-agent.ts:11);
the inline/base64 screenshot artifacts are outside this model. -/
structure UnsubscribeResult where
  url : String
  success : Bool
  message : String
deriving DecidableEq, Repr

/-- The oracle for one URL's browser world: each awaited step either
completes or throws.  `navigated` is the boolean `navigateTo` result
(navigation errors are caught inside the controller and surface as
`false`, not as exceptions).  `actionStep` abstracts
`performUnsubscribeAction` on the analyzed page: its success flag and
message, or an exception thrown by an inner browser call. -/
structure UrlEnv where
  launchStep : Except String Unit
  navigated : Bool
  screenshotBeforeStep : Except String Unit
  extractStep : Except String Unit
  actionStep : Except String (Bool × String)
  screenshotAfterStep : Except String Unit

/-- The try block of `UnsubscribeAgent.unsubscribe`
(unsubscribe-agent.ts:63–120): launch, navigate (early failure result
if navigation reports `false`), screenshot, extract+analyze, act,
screenshot; any step's exception aborts the rest of the block.
Returns the block's outcome (a result or a thrown error) and the
events performed. -/
def unsubscribeTry (url : String) (env : UrlEnv) :
    Except String (Bool × String) × List AgentEv :=
  match env.launchStep with
  | Except.error e => (Except.error e, [AgentEv.launch])
  | Except.ok _ =>
    if env.navigated = false then
      (Except.ok (false, "Failed to navigate to unsubscribe page"),
       [AgentEv.launch, AgentEv.navigate url])
    else
      match env.screenshotBeforeStep with
      | Except.error e =>
          (Except.error e, [AgentEv.launch, AgentEv.navigate url])
      | Except.ok _ =>
        match env.extractStep with
        | Except.error e =>
            (Except.error e,
             [AgentEv.launch, AgentEv.navigate url, AgentEv.screenshotTaken])
        | Except.ok _ =>
          match env.actionStep with
          | Except.error e =>
              (Except.error e,
               [AgentEv.launch, AgentEv.navigate url, AgentEv.screenshotTaken])
          | Except.ok (succ, msg) =>
            match env.screenshotAfterStep with
            | Except.error e =>
                (Except.error e,
                 [AgentEv.launch, AgentEv.navigate url, AgentEv.screenshotTaken])
            | Except.ok _ =>
                (Except.ok (succ, msg),
                 [AgentEv.launch, AgentEv.navigate url, AgentEv.screenshotTaken,
                  AgentEv.screenshotTaken])

/-- `UnsubscribeAgent.unsubscribe`: run the try block; the catch block
(unsubscribe-agent.ts:121) converts a thrown error into a failed
result carrying the error message; the finally block
(unsubscribe-agent.ts:131) closes the browser after either path. -/
def unsubscribe (url : String) (env : UrlEnv) :
    UnsubscribeResult × List AgentEv :=
  match unsubscribeTry url env with
  | (Except.ok (succ, msg), tr) =>
      ({ url := url, success := succ, message := msg }, tr ++ [AgentEv.closeBrowser])
  | (Except.error e, tr) =>
      ({ url := url, success := false, message := e }, tr ++ [AgentEv.closeBrowser])

/-- One iteration of the `bulkUnsubscribe` loop: run the agent for the
URL, append its result, then the fixed 1000 ms inter-request delay. -/
def bulkStep (acc : List UnsubscribeResult × List AgentEv)
    (target : String × UrlEnv) : List UnsubscribeResult × List AgentEv :=
  let step := unsubscribe target.1 target.2
  (acc.1 ++ [step.1], acc.2 ++ step.2 ++ [AgentEv.delay 1000])

/-- `bulkUnsubscribe` (unsubscribe-agent.ts:737): process the URLs one
at a time, in order, accumulating results and the event trace. -/
def bulkUnsubscribe (targets : List (String × UrlEnv)) :
    List UnsubscribeResult × List AgentEv :=
  targets.foldl bulkStep ([], [])

/-! ## Helper lemmas -/

theorem find?_none_iff_any_false {α : Type} (p : α → Bool) (l : List α) :
    l.find? p = none ↔ l.any p = false := by
  rw [List.find?_eq_none, List.any_eq_false]

theorem any_true_exists_find? {α : Type} (p : α → Bool) (l : List α)
    (h : l.any p = true) : ∃ v, l.find? p = some v := by
  cases hf : l.find? p with
  | some v => exact ⟨v, rfl⟩
  | none =>
    rw [(find?_none_iff_any_false p l).mp hf] at h
    cases h

theorem getLast?_append_singleton {α : Type} (l : List α) (a : α) :
    (l ++ [a]).getLast? = some a :=
  List.getLast?_concat l

/-- A heuristic verdict with status `unknown` can only be the final
fall-through verdict: no pattern in any bucket matched. -/
theorem heuristics_unknown_eq (s : String)
    (h : (analyzeUnsubscribeResultWithHeuristics s).status = UnsubStatus.unknown) :
    analyzeUnsubscribeResultWithHeuristics s =
      { success := false, reason := "Could not verify unsubscribe result",
        status := UnsubStatus.unknown } := by
  unfold analyzeUnsubscribeResultWithHeuristics at h ⊢
  cases hS : successPatterns.find? (fun p => strIncludes (jsToLower s) p) with
  | some v => rw [hS] at h; cases h
  | none =>
    rw [hS] at h
    cases hA : alreadyDonePatterns.find? (fun p => strIncludes (jsToLower s) p) with
    | some v => rw [hA] at h; cases h
    | none =>
      rw [hA] at h
      cases hE : errorPatterns.find? (fun p => strIncludes (jsToLower s) p) with
      | some v => rw [hE] at h; cases h
      | none => rfl

/-! ## Claim theorems -/

/-- Claim C1: the heuristic tier checks its pattern sets in the fixed
priority order success, then already-done, then error, returning at
the first bucket containing a phrase that occurs (case-insensitively)
in the text; in particular any text containing both a success phrase
and an error phrase is classified `success := true`,
`status := unsubscribed`. -/
theorem heuristics_priority_order (s : String) :
    (matchesAnyPattern successPatterns s = true →
      analyzeUnsubscribeResultWithHeuristics s =
        { success := true, reason := "Successfully unsubscribed",
          status := UnsubStatus.unsubscribed })
  ∧ (matchesAnyPattern successPatterns s = false →
     matchesAnyPattern alreadyDonePatterns s = true →
      analyzeUnsubscribeResultWithHeuristics s =
        { success := true, reason := "Already unsubscribed or not subscribed",
          status := UnsubStatus.already_unsubscribed })
  ∧ (matchesAnyPattern successPatterns s = false →
     matchesAnyPattern alreadyDonePatterns s = false →
     matchesAnyPattern errorPatterns s = true →
      ((analyzeUnsubscribeResultWithHeuristics s).status = UnsubStatus.error ∧
       (analyzeUnsubscribeResultWithHeuristics s).success = false))
  ∧ (matchesAnyPattern successPatterns s = false →
     matchesAnyPattern alreadyDonePatterns s = false →
     matchesAnyPattern errorPatterns s = false →
      analyzeUnsubscribeResultWithHeuristics s =
        { success := false, reason := "Could not verify unsubscribe result",
          status := UnsubStatus.unknown })
  ∧ (matchesAnyPattern successPatterns s = true →
     matchesAnyPattern errorPatterns s = true →
      ((analyzeUnsubscribeResultWithHeuristics s).success = true ∧
       (analyzeUnsubscribeResultWithHeuristics s).status = UnsubStatus.unsubscribed)) := by
  unfold matchesAnyPattern
  refine ⟨?_, ?_, ?_, ?_, ?_⟩
  · intro hS
    obtain ⟨v, hv⟩ := any_true_exists_find? _ _ hS
    unfold analyzeUnsubscribeResultWithHeuristics
    rw [hv]
  · intro hS hA
    obtain ⟨v, hv⟩ := any_true_exists_find? _ _ hA
    unfold analyzeUnsubscribeResultWithHeuristics
    rw [(find?_none_iff_any_false _ _).mpr hS, hv]
  · intro hS hA hE
    obtain ⟨v, hv⟩ := any_true_exists_find? _ _ hE
    unfold analyzeUnsubscribeResultWithHeuristics
    rw [(find?_none_iff_any_false _ _).mpr hS,
        (find?_none_iff_any_false _ _).mpr hA, hv]
    exact ⟨rfl, rfl⟩
  · intro hS hA hE
    unfold analyzeUnsubscribeResultWithHeuristics
    rw [(find?_none_iff_any_false _ _).mpr hS,
        (find?_none_iff_any_false _ _).mpr hA,
        (find?_none_iff_any_false _ _).mpr hE]
  · intro hS _
    obtain ⟨v, hv⟩ := any_true_exists_find? _ _ hS
    unfold analyzeUnsubscribeResultWithHeuristics
    rw [hv]
    exact ⟨rfl, rfl⟩

/-- An adversarial input mixing a success phrase with two error
phrases. -/
def mixedPhrasesText : String :=
  "You have been unsubscribed. Unfortunately an error occurred and the link expired."

/-- Claim C1 witness: on the adversarial mixed text, success wins. -/
theorem heuristics_priority_order_witness :
    (analyzeUnsubscribeResultWithHeuristics mixedPhrasesText).success = true ∧
    (analyzeUnsubscribeResultWithHeuristics mixedPhrasesText).status =
      UnsubStatus.unsubscribed :=
  (heuristics_priority_order mixedPhrasesText).2.2.2.2 (by decide) (by decide)

/-- The visible text of the spec's end-to-end scenario B response
page. -/
def scenarioBText : String := "Â Our system could not find your subscription"

/-- Claim C2 counterexample: on the scenario-B text, the heuristic tier
matches no pattern at all — the verdict has status `unknown` and
`success := false`, not the claimed already-done verdict. -/
theorem scenarioB_heuristic_not_already_done :
    (analyzeUnsubscribeResultWithHeuristics scenarioBText).status = UnsubStatus.unknown ∧
    (analyzeUnsubscribeResultWithHeuristics scenarioBText).success = false ∧
    (analyzeUnsubscribeResultWithHeuristics scenarioBText).status ≠
      UnsubStatus.already_unsubscribed := by
  refine ⟨by decide, by decide, by decide⟩

/-- Claim C2 (amended): on the scenario-B text the heuristic tier is
inconclusive — it returns the fall-through verdict `success := false`,
`status := unknown` — so the Result Verifier escalates to the LLM tier
for every LLM/parse oracle. -/
theorem scenarioB_heuristic_unknown_escalates :
    (analyzeUnsubscribeResultWithHeuristics scenarioBText =
      { success := false, reason := "Could not verify unsubscribe result",
        status := UnsubStatus.unknown })
  ∧ (∀ (parse : String → Option UnsubscribeResultAnalysis)
       (llm : Except String String),
       (analyzeUnsubscribeResult parse llm scenarioBText).2 = true) := by
  have heq : analyzeUnsubscribeResultWithHeuristics scenarioBText =
      { success := false, reason := "Could not verify unsubscribe result",
        status := UnsubStatus.unknown } := by decide
  refine ⟨heq, ?_⟩
  intro parse llm
  simp only [analyzeUnsubscribeResult]
  rw [heq]
  simp only [ne_eq, not_true_eq_false, if_false]
  cases llm with
  | error e => rfl
  | ok t =>
    cases hp : parse (cleanLLMText t) with
    | some v => simp [hp]
    | none => simp [hp]

/-- Claim C3: on every LLM or parse failure during page analysis
(thrown call, or a response — empty or otherwise — whose cleaned text
does not parse as JSON), `analyzePageWithAI` returns the fixed
conservative default plan — has a button, no form, no email required,
nextAction `click_button` — and the exception never reaches the
caller; a successful parse is returned as-is. -/
theorem analyzePageWithAI_failure_default (parse : String → Option PageAnalysis)
    (llm : Except String String) :
    (∀ e, llm = Except.error e → analyzePageWithAI parse llm = defaultPageAnalysis)
  ∧ (∀ t, llm = Except.ok t → parse (cleanLLMText t) = none →
      analyzePageWithAI parse llm = defaultPageAnalysis)
  ∧ (∀ t plan, llm = Except.ok t → parse (cleanLLMText t) = some plan →
      analyzePageWithAI parse llm = plan)
  ∧ (defaultPageAnalysis.hasUnsubscribeButton = true ∧
     defaultPageAnalysis.hasForm = false ∧
     defaultPageAnalysis.requiresEmail = false ∧
     defaultPageAnalysis.nextAction = NextAction.click_button) := by
  refine ⟨?_, ?_, ?_, rfl, rfl, rfl, rfl⟩
  · intro e he; subst he; rfl
  · intro t ht hp; subst ht
    simp [analyzePageWithAI, hp]
  · intro t plan ht hp; subst ht
    simp [analyzePageWithAI, hp]

/-- Claim C3 witness: a thrown LLM call and an empty response both
yield the default plan. -/
theorem analyzePageWithAI_failure_default_witness :
    analyzePageWithAI (fun _ => none) (Except.error "LLM call failed") =
      defaultPageAnalysis ∧
    analyzePageWithAI (fun _ => none) (Except.ok "") = defaultPageAnalysis :=
  ⟨(analyzePageWithAI_failure_default (fun _ => none)
      (Except.error "LLM call failed")).1 "LLM call failed" rfl,
   (analyzePageWithAI_failure_default (fun _ => none)
      (Except.ok "")).2.1 "" rfl rfl⟩

/-- Claim C4: the LLM tier of result verification is invoked exactly
when the heuristic tier's verdict has status `unknown`; a definitive
heuristic verdict is returned directly, and when the LLM tier is
invoked but the call throws, the heuristic's inconclusive verdict
(`success := false`, `status := unknown`) is returned instead of an
exception propagating. -/
theorem llm_tier_iff_heuristic_unknown
    (parse : String → Option UnsubscribeResultAnalysis)
    (llm : Except String String) (s : String) :
    ((analyzeUnsubscribeResult parse llm s).2 = true ↔
        (analyzeUnsubscribeResultWithHeuristics s).status = UnsubStatus.unknown)
  ∧ ((analyzeUnsubscribeResultWithHeuristics s).status ≠ UnsubStatus.unknown →
        (analyzeUnsubscribeResult parse llm s).1 =
          analyzeUnsubscribeResultWithHeuristics s)
  ∧ (∀ e, llm = Except.error e →
        (analyzeUnsubscribeResultWithHeuristics s).status = UnsubStatus.unknown →
        (analyzeUnsubscribeResult parse llm s).1 =
          { success := false, reason := "Could not verify unsubscribe result",
            status := UnsubStatus.unknown }) := by
  by_cases hu : (analyzeUnsubscribeResultWithHeuristics s).status = UnsubStatus.unknown
  · have heq := heuristics_unknown_eq s hu
    have hexp : analyzeUnsubscribeResult parse llm s =
        (match llm with
         | Except.error _ => (analyzeUnsubscribeResultWithHeuristics s, true)
         | Except.ok text =>
           match parse (cleanLLMText text) with
           | some verdict => (verdict, true)
           | none => (analyzeUnsubscribeResultWithHeuristics s, true)) := by
      simp only [analyzeUnsubscribeResult]
      rw [heq]
      simp only [ne_eq, not_true_eq_false, if_false]
    refine ⟨⟨fun _ => hu, fun _ => ?_⟩, fun hne => absurd hu hne, fun e he _ => ?_⟩
    · rw [hexp]
      cases llm with
      | error e => rfl
      | ok t =>
        cases hp : parse (cleanLLMText t) with
        | some v => simp [hp]
        | none => simp [hp]
    · subst he
      rw [hexp, ← heq]
  · have hexp : analyzeUnsubscribeResult parse llm s =
        (analyzeUnsubscribeResultWithHeuristics s, false) := by
      simp only [analyzeUnsubscribeResult]
      rw [if_pos hu]
    refine ⟨⟨fun h2 => ?_, fun h => absurd h hu⟩, fun _ => ?_,
      fun e he h => absurd h hu⟩
    · rw [hexp] at h2
      cases h2
    · rw [hexp]

/-- Claim C4 witness: on a page text matching no pattern, with a
throwing LLM, the inconclusive heuristic verdict is returned and the
LLM tier was marked invoked. -/
theorem llm_tier_iff_heuristic_unknown_witness :
    ((analyzeUnsubscribeResult (fun _ => none) (Except.error "network down")
        "lorem ipsum dolor").1 =
      { success := false, reason := "Could not verify unsubscribe result",
        status := UnsubStatus.unknown }) ∧
    ((analyzeUnsubscribeResult (fun _ => none) (Except.error "network down")
        "lorem ipsum dolor").2 = true) :=
  ⟨(llm_tier_iff_heuristic_unknown (fun _ => none) (Except.error "network down")
      "lorem ipsum dolor").2.2 "network down" rfl (by decide),
   ((llm_tier_iff_heuristic_unknown (fun _ => none) (Except.error "network down")
      "lorem ipsum dolor").1).mpr (by decide)⟩

/-- Claim C5 counterexample: for a message with no `List-Unsubscribe`
header and no unsubscribe-pattern href in the body, `processMessage`
stores `null` for the unsubscribe link, whereas the claimed three-tier
determination — which would consult the LLM extractor as a last
resort — yields the LLM's URL: the stored field is not determined by
the three tiers, because the ingestion path never invokes
`extractUnsubscribeLinkWithAI`. -/
theorem threeTier_counterexample :
    processMessageUnsubscribeLink [("Subject", "Hello")]
      (some "<p>plain newsletter</p>") = none
  ∧ specThreeTierUnsubscribeLink (some "https://example.com/unsub")
      (extractHeaders [("Subject", "Hello")]) (some "<p>plain newsletter</p>") =
      some "https://example.com/unsub"
  ∧ processMessageUnsubscribeLink [("Subject", "Hello")]
      (some "<p>plain newsletter</p>") ≠
    specThreeTierUnsubscribeLink (some "https://example.com/unsub")
      (extractHeaders [("Subject", "Hello")]) (some "<p>plain newsletter</p>") := by
  refine ⟨by decide, by decide, by decide⟩

/-- Claim C5 (amended): the unsubscribe URL stored on the email record
by `processMessage` is determined in two tiers — an HTTP(S) URL from
the `List-Unsubscribe` header regex first, and if the header yields
none, the HTML href heuristics (unsubscribe/optout/opt-out/remove) —
with the field left `null` when both fail; the LLM extractor exists
but is not consulted by the ingestion path. -/
theorem processMessage_two_tier (payloadHeaders : List (String × String))
    (htmlBody : Option String) :
    processMessageUnsubscribeLink payloadHeaders htmlBody =
      (match headerTierUrl (extractHeaders payloadHeaders) with
       | some u => some u
       | none => htmlTierUrl htmlBody) := by
  unfold processMessageUnsubscribeLink extractUnsubscribeLink headerTierUrl htmlTierUrl
  rfl

/-- Claim C6: in `processEmailsForUser`, a category assignment with a
(non-empty) category id is persisted — `categoryId` and `aiConfidence`
both set in the update — exactly when its confidence is at least 0.5;
below the threshold nothing is set, and a `null` category id is never
persisted. -/
theorem confidenceGate_iff (cid : String) (conf : ℚ) (h : cid ≠ "") :
    (confidenceGateUpdates { categoryId := some cid, confidence := conf } =
        some (cid, conf) ↔ (1 : ℚ)/2 ≤ conf)
  ∧ (conf < 1/2 →
      confidenceGateUpdates { categoryId := some cid, confidence := conf } = none)
  ∧ (∀ c : ℚ, confidenceGateUpdates { categoryId := none, confidence := c } = none) := by
  refine ⟨?_, ?_, fun c => rfl⟩
  · by_cases hc : (1 : ℚ)/2 ≤ conf
    · simp [confidenceGateUpdates, h, hc]
    · simp [confidenceGateUpdates, h, hc]
  · intro hlt
    have hne : ¬ ((1 : ℚ)/2 ≤ conf) := not_le.mpr hlt
    simp only [confidenceGateUpdates]
    exact if_neg fun hc => hne hc.2

/-- Claim C6 witness: the boundary — confidence 0.49 leaves the
category unset, confidence 0.50 sets it. -/
theorem confidenceGate_iff_witness :
    confidenceGateUpdates { categoryId := some "cat1", confidence := 49/100 } =
      none ∧
    confidenceGateUpdates { categoryId := some "cat1", confidence := 50/100 } =
      some ("cat1", 50/100) :=
  ⟨(confidenceGate_iff "cat1" (49/100) (by decide)).2.1 (by norm_num),
   ((confidenceGate_iff "cat1" (50/100) (by decide)).1).mpr (by norm_num)⟩

/-- Claim C10: `recategorizeEmails` applies no confidence threshold —
any (non-empty) category id returned by the classifier is persisted
together with its confidence, whatever that confidence is, and a
`null` category id clears `categoryId` and `aiConfidence`. -/
theorem recategorize_no_threshold (cid : String) (conf : ℚ) (h : cid ≠ "") :
    (recategorizeAction { categoryId := some cid, confidence := conf } =
        RecategorizeAction.setCategory cid conf)
  ∧ (recategorizeAction { categoryId := none, confidence := conf } =
        RecategorizeAction.clearCategory) := by
  refine ⟨?_, rfl⟩
  simp [recategorizeAction, h]

/-- Claim C10 witness: a confidence of 0.3 — below the classification
stage's 0.5 gate — is still persisted by the recategorization path,
and a `null` id clears the category. -/
theorem recategorize_no_threshold_witness :
    recategorizeAction { categoryId := some "cat1", confidence := 3/10 } =
      RecategorizeAction.setCategory "cat1" (3/10) ∧
    recategorizeAction { categoryId := none, confidence := 3/10 } =
      RecategorizeAction.clearCategory :=
  ⟨(recategorize_no_threshold "cat1" (3/10) (by decide)).1,
   (recategorize_no_threshold "cat1" (3/10) (by decide)).2⟩

/-- The `bulkUnsubscribe` fold appends, per target in order, its
result and its events followed by the fixed 1000 ms delay. -/
theorem bulkUnsubscribe_foldl (targets : List (String × UrlEnv))
    (accR : List UnsubscribeResult) (accT : List AgentEv) :
    targets.foldl bulkStep (accR, accT) =
      (accR ++ targets.map (fun t => (unsubscribe t.1 t.2).1),
       accT ++
        (targets.map (fun t => (unsubscribe t.1 t.2).2 ++ [AgentEv.delay 1000])).flatten) := by
  induction targets generalizing accR accT with
  | nil => simp
  | cons t ts ih =>
    simp only [List.foldl_cons, List.map_cons, List.flatten_cons]
    rw [show bulkStep (accR, accT) t =
          (accR ++ [(unsubscribe t.1 t.2).1],
           accT ++ (unsubscribe t.1 t.2).2 ++ [AgentEv.delay 1000]) from rfl,
        ih]
    simp [List.append_assoc]

/-- Claim C7: `bulkUnsubscribe` processes its n URLs strictly
sequentially, emitting the fixed 1000 ms inter-request delay after each
attempt, and returns exactly n outcomes in input order, the i-th
outcome depending only on the i-th URL's environment; a failed
navigation yields `success := false` with the navigation-failure
message for that index alone. -/
theorem bulk_sequential_isolated (targets : List (String × UrlEnv)) :
    ((bulkUnsubscribe targets).1 =
        targets.map (fun t => (unsubscribe t.1 t.2).1))
  ∧ ((bulkUnsubscribe targets).2 =
        (targets.map
          (fun t => (unsubscribe t.1 t.2).2 ++ [AgentEv.delay 1000])).flatten)
  ∧ ((bulkUnsubscribe targets).1.length = targets.length)
  ∧ (∀ url env, env.launchStep = Except.ok () → env.navigated = false →
      (unsubscribe url env).1 =
        { url := url, success := false,
          message := "Failed to navigate to unsubscribe page" }) := by
  have h := bulkUnsubscribe_foldl targets [] []
  unfold bulkUnsubscribe
  rw [h]
  refine ⟨by simp, by simp, by simp, ?_⟩
  intro url env hl hn
  unfold unsubscribe unsubscribeTry
  rw [hl, hn]
  rfl

/-- Environment of an attempt in which every step succeeds. -/
def okEnv : UrlEnv :=
  { launchStep := Except.ok ()
    navigated := true
    screenshotBeforeStep := Except.ok ()
    extractStep := Except.ok ()
    actionStep := Except.ok (true, "Successfully unsubscribed")
    screenshotAfterStep := Except.ok () }

/-- Environment of an attempt whose navigation reports failure. -/
def badNavEnv : UrlEnv :=
  { okEnv with navigated := false }

/-- Three unsubscribe targets whose middle navigation fails. -/
def demoTargets : List (String × UrlEnv) :=
  [("https://a.example/unsub", okEnv),
   ("https://b.example/unsub", badNavEnv),
   ("https://c.example/unsub", okEnv)]

/-- Claim C7 witness: three URLs with the second navigation failing
give three outcomes, and the failed environment yields the
navigation-failure outcome. -/
theorem bulk_sequential_isolated_witness :
    (bulkUnsubscribe demoTargets).1.length = 3 ∧
    (unsubscribe "https://b.example/unsub" badNavEnv).1 =
      { url := "https://b.example/unsub", success := false,
        message := "Failed to navigate to unsubscribe page" } :=
  ⟨((bulk_sequential_isolated demoTargets).2.2.1).trans rfl,
   (bulk_sequential_isolated demoTargets).2.2.2 "https://b.example/unsub"
     badNavEnv rfl rfl⟩

/-- Claim C8: on every execution of the per-URL unit of work —
successful outcome, failed navigation, or an exception thrown at any
inner step — the browser close is the last event before the method
returns, and the returned result carries the requested URL. -/
theorem unsubscribe_always_closes (url : String) (env : UrlEnv) :
    ((unsubscribe url env).2.getLast? = some AgentEv.closeBrowser)
  ∧ (AgentEv.closeBrowser ∈ (unsubscribe url env).2)
  ∧ ((unsubscribe url env).1.url = url) := by
  unfold unsubscribe
  cases htry : unsubscribeTry url env with
  | mk r tr =>
    cases r with
    | ok v =>
      cases v with
      | mk succ msg => exact ⟨getLast?_append_singleton tr _, by simp, rfl⟩
    | error e => exact ⟨getLast?_append_singleton tr _, by simp, rfl⟩

/-- Claim C9: when no owner email address is supplied, the planned
value `{{EMAIL}}` is not substituted — the browser write for a
text/email/textarea field carries the literal placeholder — and a
substitution can only ever happen when a non-empty email was
provided for a field planned exactly as the placeholder. -/
theorem email_placeholder_literal_without_email (f : FormFieldToFill)
    (hv : f.value = emailPlaceholder)
    (hk : f.type = FieldKind.text ∨ f.type = FieldKind.email ∨
          f.type = FieldKind.textarea) :
    (fieldWrites none f = [FormWrite.fill f.selector emailPlaceholder])
  ∧ (∀ v : String, substitutedValue none v = v)
  ∧ (∀ (email : Option String) (v : String),
      substitutedValue email v ≠ v →
      ∃ e, email = some e ∧ v = emailPlaceholder ∧ e ≠ "" ∧
        substitutedValue email v = e) := by
  refine ⟨?_, fun v => rfl, ?_⟩
  · rcases hk with hty | hty | hty <;>
      simp [fieldWrites, substitutedValue, hty, hv]
  · intro email v hne
    cases email with
    | none => exact absurd rfl hne
    | some e =>
      by_cases hcond : v = emailPlaceholder ∧ e ≠ ""
      · refine ⟨e, rfl, hcond.1, hcond.2, ?_⟩
        simp [substitutedValue, hcond]
      · exfalso
        apply hne
        simp only [substitutedValue]
        rw [if_neg hcond]

/-- A planned email field whose value is the placeholder. -/
def demoEmailField : FormFieldToFill :=
  { selector := "#email"
    type := FieldKind.email
    value := emailPlaceholder
    description := some "subscriber email" }

/-- Claim C9 witness: with no email supplied, the planned placeholder
field is written literally. -/
theorem email_placeholder_literal_without_email_witness :
    fieldWrites none demoEmailField =
      [FormWrite.fill "#email" emailPlaceholder] :=
  (email_placeholder_literal_without_email demoEmailField rfl
    (Or.inr (Or.inl rfl))).1
